import Mathlib

/-!
Shallow embedding of the event-driven task-management layer of the
repository (frontend TypeScript under `src/frontend`, plus the
documented publisher/consumer services).  Pure functions of the source
become Lean functions; stateful handlers become explicit
state-transition functions.  JSON values are modelled by an inductive
type with integer numerals (floating-point numerals are out of scope
for the properties considered here).
-/

/-- JSON values as handled by the client code.  Numbers are modelled as
integers: every numeric field the application exchanges (`task_id`,
HTTP status) is integral. -/
inductive Json where
  | null : Json
  | bool (b : Bool) : Json
  | num (n : Int) : Json
  | str (s : String) : Json
  | arr (elems : List Json) : Json
  | obj (fields : List (String × Json)) : Json
deriving Repr

/-- Look up the value of the first field with the given key in a JSON
object field list (JavaScript property access on a parsed object). -/
def jsonLookup (fields : List (String × Json)) (k : String) : Option Json :=
  (fields.find? (fun f => f.1 = k)).map (fun f => f.2)

/-- JavaScript property access `v.k` as a fallible operation: a field
lookup on objects, `undefined` (here `Except.ok none`) on primitives
and arrays without that property (primitives are boxed, so the access
does not throw), and a thrown `TypeError` on `null` (the exact text is
engine-specific; the model fixes one rendering of the V8 message). -/
def jsonGetField (j : Json) (k : String) : Except String (Option Json) :=
  match j with
  | Json.null =>
    Except.error ("Cannot read properties of null (reading " ++ k ++ ")")
  | Json.obj fields => Except.ok (jsonLookup fields k)
  | _ => Except.ok none

/-- JavaScript truthiness of a JSON value: `null`, `false`, `0` and the
empty string are falsy; arrays and objects are always truthy. -/
def jsonTruthy : Json → Bool
  | Json.null => false
  | Json.bool b => b
  | Json.num n => decide (n ≠ 0)
  | Json.str s => decide (s ≠ "")
  | Json.arr _ => true
  | Json.obj _ => true

/-- Whether a JSON value is `null`. -/
def Json.isNull : Json → Bool
  | Json.null => true
  | _ => false

/-- JavaScript string coercion of a JSON value, as performed by
`new Error(x)` on a non-string argument.  An array joins its elements
with commas, where a `null` element contributes the empty string
(`Array.prototype.join` maps null to the empty string). -/
def jsToString : Json → String
  | Json.null => "null"
  | Json.bool true => "true"
  | Json.bool false => "false"
  | Json.num n => toString n
  | Json.str s => s
  | Json.arr xs =>
    String.intercalate ","
      (xs.attach.map (fun x => if x.1.isNull then "" else jsToString x.1))
  | Json.obj _ => "[object Object]"
decreasing_by
  simp_wf
  have h := List.sizeOf_lt_of_mem x.2
  omega

/-- The opening-brace character, written by code point. -/
def braceOpen : Char := Char.ofNat 123

/-- The closing-brace character, written by code point. -/
def braceClose : Char := Char.ofNat 125

/-- Skip JSON whitespace. -/
def skipWs : List Char → List Char
  | [] => []
  | c :: cs => if c = ' ' ∨ c = '\t' ∨ c = '\n' ∨ c = '\r' then skipWs cs else c :: cs

/-- Decode one hexadecimal digit. -/
def hexDigit (c : Char) : Option Nat :=
  if '0' ≤ c ∧ c ≤ '9' then some (c.toNat - '0'.toNat)
  else if 'a' ≤ c ∧ c ≤ 'f' then some (c.toNat - 'a'.toNat + 10)
  else if 'A' ≤ c ∧ c ≤ 'F' then some (c.toNat - 'A'.toNat + 10)
  else none

/-- Parse the body of a JSON string literal (after the opening quote),
handling the standard escapes, returning the string and the remaining
input. -/
def parseStringBody (acc : List Char) : List Char → Option (String × List Char)
  | [] => none
  | '\"' :: rest => some (String.mk acc.reverse, rest)
  | '\\' :: 'u' :: a :: b :: c :: d :: rest =>
    match hexDigit a, hexDigit b, hexDigit c, hexDigit d with
    | some ha, some hb, some hc, some hd =>
      parseStringBody (Char.ofNat (((ha * 16 + hb) * 16 + hc) * 16 + hd) :: acc) rest
    | _, _, _, _ => none
  | '\\' :: e :: rest =>
    if e = '\"' then parseStringBody ('\"' :: acc) rest
    else if e = '\\' then parseStringBody ('\\' :: acc) rest
    else if e = '/' then parseStringBody ('/' :: acc) rest
    else if e = 'n' then parseStringBody ('\n' :: acc) rest
    else if e = 't' then parseStringBody ('\t' :: acc) rest
    else if e = 'r' then parseStringBody ('\r' :: acc) rest
    else if e = 'b' then parseStringBody (Char.ofNat 8 :: acc) rest
    else if e = 'f' then parseStringBody (Char.ofNat 12 :: acc) rest
    else none
  | c :: rest => parseStringBody (c :: acc) rest

/-- Consume a maximal run of decimal digits. -/
def takeDigits : List Char → List Char × List Char
  | [] => ([], [])
  | c :: cs =>
    if c.isDigit then
      let (ds, rest) := takeDigits cs
      (c :: ds, rest)
    else ([], c :: cs)

/-- Numeric value of a digit run. -/
def digitsToNat (ds : List Char) : Nat :=
  ds.foldl (fun n c => n * 10 + (c.toNat - '0'.toNat)) 0

/-- Parse a JSON integer numeral (optional leading minus). -/
def parseNumber (cs : List Char) : Option (Json × List Char) :=
  match cs with
  | '-' :: rest =>
    let (ds, rest2) := takeDigits rest
    if ds.isEmpty then none else some (Json.num (-(Int.ofNat (digitsToNat ds))), rest2)
  | _ =>
    let (ds, rest2) := takeDigits cs
    if ds.isEmpty then none else some (Json.num (Int.ofNat (digitsToNat ds)), rest2)

mutual

/-- Fuel-indexed JSON value parser (model of `JSON.parse`). -/
def parseValue : Nat → List Char → Option (Json × List Char)
  | 0, _ => none
  | fuel + 1, cs =>
    match skipWs cs with
    | [] => none
    | 'n' :: 'u' :: 'l' :: 'l' :: rest => some (Json.null, rest)
    | 't' :: 'r' :: 'u' :: 'e' :: rest => some (Json.bool true, rest)
    | 'f' :: 'a' :: 'l' :: 's' :: 'e' :: rest => some (Json.bool false, rest)
    | '\"' :: rest =>
      match parseStringBody [] rest with
      | some (s, rest2) => some (Json.str s, rest2)
      | none => none
    | '[' :: rest =>
      (match skipWs rest with
       | ']' :: rest2 => some (Json.arr [], rest2)
       | cs2 => parseArrayItems fuel [] cs2)
    | c :: rest =>
      if c = braceOpen then
        (match skipWs rest with
         | c2 :: rest2 =>
           if c2 = braceClose then some (Json.obj [], rest2)
           else parseObjectFields fuel [] (c2 :: rest2)
         | [] => none)
      else if c = '-' ∨ c.isDigit then parseNumber (c :: rest)
      else none

/-- Fuel-indexed parser for the items of a non-empty JSON array. -/
def parseArrayItems : Nat → List Json → List Char → Option (Json × List Char)
  | 0, _, _ => none
  | fuel + 1, acc, cs =>
    match parseValue fuel cs with
    | none => none
    | some (v, rest) =>
      match skipWs rest with
      | ',' :: rest2 => parseArrayItems fuel (v :: acc) rest2
      | ']' :: rest2 => some (Json.arr (v :: acc).reverse, rest2)
      | _ => none

/-- Fuel-indexed parser for the fields of a non-empty JSON object. -/
def parseObjectFields : Nat → List (String × Json) → List Char → Option (Json × List Char)
  | 0, _, _ => none
  | fuel + 1, acc, cs =>
    match skipWs cs with
    | '\"' :: rest =>
      (match parseStringBody [] rest with
       | none => none
       | some (k, rest2) =>
         match skipWs rest2 with
         | ':' :: rest3 =>
           (match parseValue fuel rest3 with
            | none => none
            | some (v, rest4) =>
              match skipWs rest4 with
              | ',' :: rest5 => parseObjectFields fuel ((k, v) :: acc) rest5
              | c :: rest5 =>
                if c = braceClose then some (Json.obj ((k, v) :: acc).reverse, rest5)
                else none
              | [] => none)
         | _ => none)
    | _ => none

end

/-- Model of `JSON.parse` on a whole input string: parse one value and
require only trailing whitespace, `none` on malformed input. -/
def parseJson (s : String) : Option Json :=
  match parseValue (2 * s.length + 4) s.data with
  | some (j, rest) => if (skipWs rest).isEmpty then some j else none
  | none => none


/-! ## Client WebSocket hook (`src/frontend/src/hooks/useWebSocket.ts`) -/

/-- Options of the `useWebSocket` hook: `userId : string | undefined`
and the `enabled` flag (default `true`). -/
structure HookProps where
  userId : Option String
  enabled : Bool
deriving DecidableEq, Repr

/-- Mutable state of the hook: the `connected` React state, the
`wsRef` current socket (identified by its URL) and the pending
reconnection timer (delay in milliseconds). -/
structure HookState where
  connected : Bool
  wsUrl : Option String
  pendingReconnectMs : Option Nat
deriving DecidableEq, Repr

/-- Externally visible actions the hook can perform. -/
inductive HookAction where
  | createWebSocket (url : String) : HookAction
  | scheduleReconnect (ms : Nat) : HookAction
deriving DecidableEq, Repr

/-- JavaScript falsiness of a `string | undefined` value: `undefined`
and the empty string are falsy. -/
def jsFalsyOptStr : Option String → Bool
  | Option.none => true
  | some s => decide (s = "")

/-- The default WebSocket endpoint and per-user path used by the hook. -/
def wsUrlFor (userId : String) : String :=
  "ws://localhost:8004/ws/" ++ userId

/-- The hook's `connect` function.  It returns early when `userId` is
falsy or the hook is disabled; otherwise it constructs a WebSocket,
and if the constructor throws (`ctorOk = false`) it schedules a retry
in 5000 ms instead of propagating the exception. -/
def connect (p : HookProps) (ctorOk : Bool) (s : HookState) :
    HookState × List HookAction :=
  if jsFalsyOptStr p.userId || !p.enabled then (s, [])
  else
    let url := wsUrlFor (p.userId.getD "")
    if ctorOk then
      ({ s with wsUrl := some url }, [HookAction.createWebSocket url])
    else
      ({ s with pendingReconnectMs := some 5000 }, [HookAction.scheduleReconnect 5000])

/-- The hook's `ws.onclose` handler: mark disconnected and schedule a
reconnection attempt after 5000 ms. -/
def wsOnClose (s : HookState) : HookState × List HookAction :=
  ({ s with connected := false, pendingReconnectMs := some 5000 },
   [HookAction.scheduleReconnect 5000])

/-- The hook's `ws.onmessage` handler, as the list of messages passed
to the `onMessage` callback for one raw frame: `JSON.parse` inside
`try`, the parsed value passed on success, the frame silently dropped
on a parse error. -/
def wsOnMessageDeliveries (raw : String) : List Json :=
  match parseJson raw with
  | some m => [m]
  | none => []

/-- Modelled from the spec: a broker consumer's handling of one raw
event payload — a malformed payload is dropped with a logged warning
and the process continues (the function returns normally); a
well-formed payload is passed on with no warning. -/
def consumerHandleRaw (raw : String) : Option Json × List String :=
  match parseJson raw with
  | some j => (some j, [])
  | Option.none => (Option.none, ["warning: malformed event payload dropped"])

/-! ## Live-update message shapes (spec §6 and the client type) -/

/-- Shape check for the client-side `WebSocketMessage` interface of
`useWebSocket.ts`: `type : string` required, `task_id?: number` and
`data?: Record of string to unknown` optional (absent or of the stated
type; `null` is not an object value for the optional `data`). -/
def matchesClientWsType (j : Json) : Bool :=
  match j with
  | Json.obj fields =>
    (match jsonLookup fields "type" with
     | some (Json.str _) => true
     | _ => false)
    && (match jsonLookup fields "task_id" with
        | some (Json.num _) => true
        | Option.none => true
        | _ => false)
    && (match jsonLookup fields "data" with
        | some (Json.obj _) => true
        | Option.none => true
        | _ => false)
  | _ => false

/-- Shape check for the server-to-client live-update message.
Modelled from the spec: a JSON object with exactly the fields
`type : string`, `task_id : integer` and `data : object or null`,
`type` and `task_id` always present. -/
def isSpecLiveUpdateShape (j : Json) : Bool :=
  match j with
  | Json.obj fields =>
    (match jsonLookup fields "type" with
     | some (Json.str _) => true
     | _ => false)
    && (match jsonLookup fields "task_id" with
        | some (Json.num _) => true
        | _ => false)
    && (match jsonLookup fields "data" with
        | some (Json.obj _) => true
        | some Json.null => true
        | _ => false)
    && fields.all (fun f => f.1 = "type" || f.1 = "task_id" || f.1 = "data")
  | _ => false

/-- Task transition kinds carried by events. -/
inductive EventKind where
  | created : EventKind
  | updated : EventKind
  | deleted : EventKind
  | completed : EventKind
  | uncompleted : EventKind
deriving DecidableEq, Repr

/-- Wire name of an event kind. -/
def eventKindName : EventKind → String
  | EventKind.created => "task_created"
  | EventKind.updated => "task_updated"
  | EventKind.deleted => "task_deleted"
  | EventKind.completed => "task_completed"
  | EventKind.uncompleted => "task_uncompleted"

/-- A task-mutation event as routed to the broker topics. -/
structure TaskEvent where
  kind : EventKind
  taskId : Nat
  userId : String

/-- Modelled from the spec: the live-update message the Broadcaster
writes for one task event (`data` is the optional field snapshot,
serialized as an object, or `null`). -/
def liveUpdateMessageFor (ev : TaskEvent) (payload : Option (List (String × Json))) : Json :=
  Json.obj [("type", Json.str (eventKindName ev.kind)),
            ("task_id", Json.num (Int.ofNat ev.taskId)),
            ("data", match payload with
                     | some fields => Json.obj fields
                     | Option.none => Json.null)]

/-- Modelled from the spec: the messages produced per task event —
exactly one, with no batching. -/
def liveUpdateMessagesFor (ev : TaskEvent) (payload : Option (List (String × Json))) :
    List Json :=
  [liveUpdateMessageFor ev payload]

/-- Modelled from the spec: the Broadcaster's connection registry, a
map from user id to the open connections for that user. -/
def registerConnection (reg : List (String × List Nat)) (u : String) (c : Nat) :
    List (String × List Nat) :=
  match reg.find? (fun e => e.1 = u) with
  | some _ => reg.map (fun e => if e.1 = u then (e.1, c :: e.2) else e)
  | Option.none => (u, [c]) :: reg

/-- Modelled from the spec: accepting a (re)connecting client —
register the connection; the Broadcaster does not buffer or replay
missed events, so no backlog of messages is pushed to the new
connection. -/
def broadcasterAccept (reg : List (String × List Nat)) (u : String) (c : Nat) :
    List (String × List Nat) × List Json :=
  (registerConnection reg u c, [])

/-! ## Task form tag handling (`src/frontend/src/components/TaskForm.tsx`) -/

/-- Whitespace characters stripped by JavaScript's `String.trim`
(the ASCII ones the application can encounter in a tag input). -/
def isJsWhitespace (c : Char) : Bool :=
  c = ' ' ∨ c = '\t' ∨ c = '\n' ∨ c = '\r' ∨ c = Char.ofNat 11 ∨ c = Char.ofNat 12

/-- Drop leading JavaScript whitespace from a character list. -/
def dropLeadingWs : List Char → List Char
  | [] => []
  | c :: cs => if isJsWhitespace c then dropLeadingWs cs else c :: cs

/-- JavaScript's `String.trim`: strip leading and trailing whitespace. -/
def jsTrim (s : String) : String :=
  String.mk ((dropLeadingWs (dropLeadingWs s.data).reverse).reverse)

/-- The form's `handleAddTag`: trim the input; when the trimmed tag is
non-empty and not already in the list, append it and clear the input
field; otherwise leave both unchanged.  Returns the new tag list and
the new input-field content. -/
def handleAddTag (tags : List String) (tagInput : String) : List String × String :=
  let tag := jsTrim tagInput
  if tag ≠ "" ∧ tag ∉ tags then (tags ++ [tag], "") else (tags, tagInput)

/-- The form's `handleRemoveTag`: drop every occurrence of the tag. -/
def handleRemoveTag (tags : List String) (tagToRemove : String) : List String :=
  tags.filter (fun t => t ≠ tagToRemove)

/-! ## API client response handling (`src/frontend/src/lib/api.ts`) -/

/-- A fetch response as seen by `apiClient`: the `ok` flag, the status
code and the raw body text (`response.json()` is modelled by
`parseJson` on the body). -/
structure HttpResponse where
  ok : Bool
  status : Nat
  body : String

/-- Outcome of `apiClient` after the fetch resolves: a thrown `Error`
message, or the value the caller receives. -/
inductive ApiOutcome where
  | thrown (message : String) : ApiOutcome
  | value (v : Json) : ApiOutcome

/-- The response-handling tail of `apiClient`: on a non-ok response,
parse the body (falling back to an object with
`detail = "Request failed"` when parsing fails) and evaluate
`error.detail` — a TypeError thrown by that access on a parsed `null`
body propagates as-is; otherwise throw an `Error` whose message is the
string coercion of `detail` when truthy, else `HTTP <status>`; on 204
return an empty object; otherwise return the parsed body
(`response.json()` rejection modelled as a thrown syntax error). -/
def apiClientHandle (resp : HttpResponse) : ApiOutcome :=
  if !resp.ok then
    let error : Json :=
      match parseJson resp.body with
      | some j => j
      | Option.none => Json.obj [("detail", Json.str "Request failed")]
    match jsonGetField error "detail" with
    | Except.error msg => ApiOutcome.thrown msg
    | Except.ok detail =>
      let message : String :=
        match detail with
        | some d => if jsonTruthy d then jsToString d else "HTTP " ++ toString resp.status
        | Option.none => "HTTP " ++ toString resp.status
      ApiOutcome.thrown message
  else if resp.status = 204 then
    ApiOutcome.value (Json.obj [])
  else
    match parseJson resp.body with
    | some j => ApiOutcome.value j
    | Option.none => ApiOutcome.thrown "Unexpected end of JSON input"

/-! ## Calendar dates and recurrence (spec §4.4) -/

/-- A calendar date (month `1..12`, day `1..31`). -/
structure Date where
  year : Nat
  month : Nat
  day : Nat
deriving DecidableEq, Repr

/-- Gregorian leap-year rule. -/
def isLeapYear (y : Nat) : Bool :=
  (y % 4 = 0 && y % 100 ≠ 0) || y % 400 = 0

/-- Number of days in a month of a given year. -/
def daysInMonth (y m : Nat) : Nat :=
  if m = 2 then (if isLeapYear y then 29 else 28)
  else if m = 4 ∨ m = 6 ∨ m = 9 ∨ m = 11 then 30
  else 31

/-- The next calendar day, rolling over month and year ends. -/
def addOneDay (d : Date) : Date :=
  if d.day < daysInMonth d.year d.month then { d with day := d.day + 1 }
  else if d.month < 12 then { year := d.year, month := d.month + 1, day := 1 }
  else { year := d.year + 1, month := 1, day := 1 }

/-- Add `n` calendar days. -/
def addDays (n : Nat) (d : Date) : Date :=
  Nat.iterate addOneDay n d

/-- The same day-of-month in the next month, clamped to the last valid
day when the target month is shorter. -/
def addOneMonthClamped (d : Date) : Date :=
  let targetYear := if d.month = 12 then d.year + 1 else d.year
  let targetMonth := if d.month = 12 then 1 else d.month + 1
  { year := targetYear, month := targetMonth,
    day := min d.day (daysInMonth targetYear targetMonth) }

/-- Recurrence rules of a task. -/
inductive Recurrence where
  | none : Recurrence
  | daily : Recurrence
  | weekly : Recurrence
  | monthly : Recurrence
deriving DecidableEq, Repr

/-- Task priority levels. -/
inductive Priority where
  | low : Priority
  | medium : Priority
  | high : Priority
  | urgent : Priority
deriving DecidableEq, Repr

/-- Modelled from the spec: the next due date the Recurring-Task
Consumer computes from the recurrence rule and the anchor date
(the original due date, or the completion time when none exists). -/
def nextDueDate (rule : Recurrence) (anchor : Date) : Option Date :=
  match rule with
  | Recurrence.none => Option.none
  | Recurrence.daily => some (addDays 1 anchor)
  | Recurrence.weekly => some (addDays 7 anchor)
  | Recurrence.monthly => some (addOneMonthClamped anchor)

/-! ## Event publisher (spec §4.1, service code not under `src/`) -/

/-- Outcome of the underlying broker send attempted by `publish`. -/
inductive BrokerOutcome where
  | delivered : BrokerOutcome
  | timeout : BrokerOutcome
  | connectionRefused : BrokerOutcome
  | serializationError : BrokerOutcome
deriving DecidableEq, Repr

/-- Modelled from the spec: `publish(event)` — a no-op when the global
toggle is off; otherwise attempt the broker send and, on any failure,
catch it and log it.  The return value is the list of log lines: by
type, no error escapes to the caller. -/
def publish (enabled : Bool) (ev : TaskEvent) (outcome : BrokerOutcome) : List String :=
  if !enabled then []
  else
    match outcome with
    | BrokerOutcome.delivered => []
    | BrokerOutcome.timeout =>
      ["publish failed for task " ++ toString ev.taskId ++ ": timeout"]
    | BrokerOutcome.connectionRefused =>
      ["publish failed for task " ++ toString ev.taskId ++ ": connection refused"]
    | BrokerOutcome.serializationError =>
      ["publish failed for task " ++ toString ev.taskId ++ ": serialization error"]

/-- Modelled from the spec: a task-mutation handler — commit the
mutation to the store first, then publish; the committed store is
returned together with the publish log, whatever the broker outcome. -/
def taskMutationHandler {Store : Type} (st : Store) (mutate : Store → Store)
    (enabled : Bool) (ev : TaskEvent) (outcome : BrokerOutcome) : Store × List String :=
  let committed := mutate st
  (committed, publish enabled ev outcome)

/-! ## Recurring-Task Consumer (spec §4.4, service code not under `src/`) -/

/-- Snapshot of the task fields carried in a completion event. -/
structure TaskSnapshot where
  title : String
  description : Option String
  priority : Priority
  tags : List String
  recurrence : Recurrence
  dueDate : Option Date
deriving DecidableEq, Repr

/-- A `completed` event as consumed by the Recurring-Task Consumer. -/
structure CompletionEvent where
  taskId : Nat
  userId : String
  snapshot : TaskSnapshot
  completedAt : Date
deriving DecidableEq, Repr

/-- A row of the shared task store.  `successorKey` is the idempotency
key `(original task id, completion timestamp)` recorded on tasks the
Recurring-Task Consumer creates, `none` on user-created tasks. -/
structure StoredTask where
  id : Nat
  userId : String
  title : String
  description : Option String
  priority : Priority
  tags : List String
  recurrence : Recurrence
  dueDate : Option Date
  isCompleted : Bool
  successorKey : Option (Nat × Date)
deriving DecidableEq, Repr

/-- The shared task store. -/
structure TaskStore where
  nextId : Nat
  tasks : List StoredTask
deriving DecidableEq, Repr

/-- `findSuccessorByIdempotencyKey` of the store contract. -/
def findSuccessorByIdempotencyKey (st : TaskStore) (k : Nat × Date) : Option StoredTask :=
  st.tasks.find? (fun t => t.successorKey = some k)

/-- Number of successor tasks recorded for an idempotency key. -/
def successorCount (st : TaskStore) (k : Nat × Date) : Nat :=
  (st.tasks.filter (fun t => t.successorKey = some k)).length

/-- Modelled from the spec: the Recurring-Task Consumer's handler for a
completion event.  Triggered only when the snapshot recurrence is not
`none`; derives the idempotency key from the original task id and the
completion timestamp, and creates the successor (same title,
description, priority, tags and recurrence, computed due date,
completion flag false) only when no successor with that key exists
(compare-and-create). -/
def handleTaskCompletedEvent (st : TaskStore) (ev : CompletionEvent) : TaskStore :=
  if ev.snapshot.recurrence = Recurrence.none then st
  else
    let key : Nat × Date := (ev.taskId, ev.completedAt)
    match findSuccessorByIdempotencyKey st key with
    | some _ => st
    | Option.none =>
      let anchor := ev.snapshot.dueDate.getD ev.completedAt
      let successor : StoredTask :=
        { id := st.nextId
          userId := ev.userId
          title := ev.snapshot.title
          description := ev.snapshot.description
          priority := ev.snapshot.priority
          tags := ev.snapshot.tags
          recurrence := ev.snapshot.recurrence
          dueDate := nextDueDate ev.snapshot.recurrence anchor
          isCompleted := false
          successorKey := some key }
      { nextId := st.nextId + 1, tasks := st.tasks ++ [successor] }

/-! ## Notification Consumer (spec §4.3, service code not under `src/`) -/

/-- Lexicographic index of a date, for ordering comparisons. -/
def dateIdx (d : Date) : Nat :=
  d.year * 10000 + d.month * 100 + d.day

/-- State of the Notification Consumer: the set of
`(task id, due date)` pairs already notified. -/
structure NotifierState where
  notified : List (Nat × Date)
deriving DecidableEq, Repr

/-- A reminders-topic event. -/
structure ReminderEvent where
  taskId : Nat
  dueDate : Date
deriving DecidableEq, Repr

/-- Modelled from the spec: the Notification Consumer's handler for one
delivery of a reminders-topic event — if the due date has not passed
and no prior notification exists for this exact `(task id, due date)`
pair, emit a notification and mark the pair notified; otherwise no-op.
Returns the new state and the notifications emitted by this delivery. -/
def handleReminderEvent (now : Date) (s : NotifierState) (ev : ReminderEvent) :
    NotifierState × List (Nat × Date) :=
  if dateIdx ev.dueDate < dateIdx now then (s, [])
  else if (ev.taskId, ev.dueDate) ∈ s.notified then (s, [])
  else ({ notified := (ev.taskId, ev.dueDate) :: s.notified },
        [(ev.taskId, ev.dueDate)])

/-- Deliver the same reminders event `n` times in a row, collecting all
emitted notifications. -/
def deliverReminderN (now : Date) (s : NotifierState) (ev : ReminderEvent) :
    Nat → NotifierState × List (Nat × Date)
  | 0 => (s, [])
  | n + 1 =>
    let step := handleReminderEvent now s ev
    let rest := deliverReminderN now step.1 ev n
    (rest.1, step.2 ++ rest.2)

/-! ## Theorems -/

/-- C1: for every call to `publish(event)` made by a task-mutation
handler, publish never raises an error that propagates to the caller:
any broker failure (timeout, connection refused, serialization error)
is caught, logged and swallowed, and the caller's task-mutation
operation still succeeds — the committed store is exactly the mutation
result, whatever the broker outcome; with the toggle off, publishing
is a no-op. -/
theorem publish_failure_swallowed :
    (∀ (Store : Type) (st : Store) (mutate : Store → Store) (enabled : Bool)
       (ev : TaskEvent) (outcome : BrokerOutcome),
       (taskMutationHandler st mutate enabled ev outcome).1 = mutate st)
    ∧ (∀ (ev : TaskEvent) (outcome : BrokerOutcome), publish false ev outcome = []) :=
  ⟨fun _ _ _ _ _ _ => rfl, fun _ _ => rfl⟩

/-- C4: for a completed monthly-recurring task, the successor's due
date is the same day-of-month in the next month, clamped to the last
valid day when the target month is shorter; in particular a due date
of January 31 yields the last day of February (29 in a leap year,
28 otherwise). -/
theorem monthly_next_due_clamped :
    (∀ y : Nat,
       nextDueDate Recurrence.monthly { year := y, month := 1, day := 31 }
         = some { year := y, month := 2, day := if isLeapYear y then 29 else 28 })
    ∧ (∀ d : Date,
       (addOneMonthClamped d).year = (if d.month = 12 then d.year + 1 else d.year)
       ∧ (addOneMonthClamped d).month = (if d.month = 12 then 1 else d.month + 1)
       ∧ (addOneMonthClamped d).day
           = min d.day (daysInMonth (addOneMonthClamped d).year (addOneMonthClamped d).month)) := by
  constructor
  · intro y
    simp only [nextDueDate, addOneMonthClamped, daysInMonth]
    cases h : isLeapYear y <;> simp [h]
  · intro d
    exact ⟨rfl, rfl, rfl⟩

/-- C5 counterexample: the client-side `WebSocketMessage` type does not
mirror the spec's live-update shape — an object with only a `type`
field is admitted by the client type (its `task_id` is optional) but
is not of the spec shape, where `task_id` is always present. -/
theorem clientWsType_mirror_counterexample :
    matchesClientWsType (Json.obj [("type", Json.str "task_created")]) = true
    ∧ isSpecLiveUpdateShape (Json.obj [("type", Json.str "task_created")]) = false
    ∧ ¬(∀ j : Json, matchesClientWsType j = isSpecLiveUpdateShape j) :=
  ⟨rfl, rfl,
   fun h => absurd (h (Json.obj [("type", Json.str "task_created")])) (by decide)⟩

/-- C5 (amended): every live-update message the server sends is a JSON
object of shape type, task_id, data with `type` and `task_id` always
present, and exactly one message is produced per task event with no
batching; the client-side message type is a relaxation of that shape
rather than an exact mirror — it requires `type`, leaves `task_id` and
`data` optional, and requires `data` to be an object when present (so
it rejects the `data = null` form and admits messages lacking
`task_id`). -/
theorem liveUpdate_message_shape :
    (∀ (ev : TaskEvent) (payload : Option (List (String × Json))),
       (liveUpdateMessagesFor ev payload).length = 1)
    ∧ (∀ (ev : TaskEvent) (payload : Option (List (String × Json))),
       isSpecLiveUpdateShape (liveUpdateMessageFor ev payload) = true)
    ∧ (∀ (ev : TaskEvent) (fields : List (String × Json)),
       matchesClientWsType (liveUpdateMessageFor ev (some fields)) = true)
    ∧ (∀ ev : TaskEvent,
       matchesClientWsType (liveUpdateMessageFor ev Option.none) = false)
    ∧ matchesClientWsType (Json.obj [("type", Json.str "task_updated")]) = true := by
  refine ⟨fun _ _ => rfl, ?_, fun _ _ => rfl, fun _ => rfl, rfl⟩
  intro ev payload
  cases payload <;> rfl

/-- C7: reconnection is the consuming client's job — on close the hook
marks itself disconnected and schedules a reconnection attempt after
5000 ms — and the broadcaster pushes no backlog of missed events to a
newly accepted (reconnected) client connection. -/
theorem reconnect_client_side_no_backlog :
    (∀ s : HookState,
       (wsOnClose s).1.connected = false
       ∧ (wsOnClose s).1.pendingReconnectMs = some 5000
       ∧ (wsOnClose s).2 = [HookAction.scheduleReconnect 5000])
    ∧ (∀ (reg : List (String × List Nat)) (u : String) (c : Nat),
       (broadcasterAccept reg u c).2 = []) :=
  ⟨fun _ => ⟨rfl, rfl, rfl⟩, fun _ _ _ => rfl⟩

/-- C10: invoking the hook's `connect` with `userId` undefined or
`enabled` false returns immediately: no WebSocket is constructed, no
reconnection timer is scheduled (the action list is empty) and the
hook state — its `connected` flag included — is unchanged. -/
theorem connect_noop_when_disabled (p : HookProps) (ctorOk : Bool) (s : HookState)
    (h : p.userId = Option.none ∨ p.enabled = false) :
    connect p ctorOk s = (s, []) := by
  rcases h with h | h
  · simp [connect, jsFalsyOptStr, h]
  · simp [connect, h]

/-- Witness for `connect_noop_when_disabled` at a concrete disabled
invocation. -/
theorem connect_noop_when_disabled_witness :
    connect { userId := Option.none, enabled := true } true
        { connected := false, wsUrl := Option.none, pendingReconnectMs := Option.none }
      = ({ connected := false, wsUrl := Option.none, pendingReconnectMs := Option.none }, []) :=
  connect_noop_when_disabled _ _ _ (Or.inl rfl)

/-- C6: a malformed event payload is dropped with a logged warning and
does not crash the receiving process — in the client, when the frame's
data is not valid JSON the `onmessage` handler invokes the `onMessage`
callback on nothing (and, being a total function, throws nothing),
while a well-formed JSON frame is always passed to `onMessage`;
concretely, garbage is dropped and a live-update frame is delivered
parsed; a consumer process drops a malformed payload with a warning
and returns normally. -/
theorem malformed_ws_message_dropped :
    (∀ raw : String, parseJson raw = Option.none → wsOnMessageDeliveries raw = [])
    ∧ (∀ (raw : String) (j : Json), parseJson raw = some j → wsOnMessageDeliveries raw = [j])
    ∧ wsOnMessageDeliveries "not json" = []
    ∧ wsOnMessageDeliveries "\x7b\"type\": \"task_created\", \"task_id\": 7\x7d"
        = [Json.obj [("type", Json.str "task_created"), ("task_id", Json.num 7)]]
    ∧ (∀ raw : String, parseJson raw = Option.none →
       consumerHandleRaw raw
         = (Option.none, ["warning: malformed event payload dropped"]))
    ∧ (∀ (raw : String) (j : Json), parseJson raw = some j →
       consumerHandleRaw raw = (some j, [])) := by
  refine ⟨?_, ?_, rfl, rfl, ?_, ?_⟩
  · intro raw h; simp [wsOnMessageDeliveries, h]
  · intro raw j h; simp [wsOnMessageDeliveries, h]
  · intro raw h; simp [consumerHandleRaw, h]
  · intro raw j h; simp [consumerHandleRaw, h]

/-- Witness for `malformed_ws_message_dropped` on a concrete malformed
frame. -/
theorem malformed_ws_message_dropped_witness :
    wsOnMessageDeliveries "oops" = [] :=
  malformed_ws_message_dropped.1 "oops" (by rfl)

/-- C8: the task form's tag list behaves as an insertion-ordered set —
adding a tag appends its trimmed form at the end exactly when it is
non-empty and not already present (otherwise the list is unchanged),
a duplicate-free list stays duplicate-free, and the existing elements
keep their relative order (the old list is a prefix of the new one). -/
theorem tags_nodup_append_order :
    (∀ (tags : List String) (t : String),
       (jsTrim t) ≠ "" → (jsTrim t) ∉ tags → handleAddTag tags t = (tags ++ [(jsTrim t)], ""))
    ∧ (∀ (tags : List String) (t : String),
       (jsTrim t) = "" ∨ (jsTrim t) ∈ tags → handleAddTag tags t = (tags, t))
    ∧ (∀ (tags : List String) (t : String),
       tags.Nodup → ((handleAddTag tags t).1).Nodup)
    ∧ (∀ (tags : List String) (t : String), tags <+: (handleAddTag tags t).1) := by
  refine ⟨?_, ?_, ?_, ?_⟩
  · intro tags t h1 h2
    simp [handleAddTag, h1, h2]
  · intro tags t h
    rcases h with h | h
    · simp [handleAddTag, h]
    · simp [handleAddTag, h]
  · intro tags t hnd
    by_cases h : (jsTrim t) ≠ "" ∧ (jsTrim t) ∉ tags
    · simp only [handleAddTag, if_pos h]
      simp [List.nodup_append, hnd, h.2]
    · simp only [handleAddTag, if_neg h]
      exact hnd
  · intro tags t
    by_cases h : (jsTrim t) ≠ "" ∧ (jsTrim t) ∉ tags
    · simp only [handleAddTag, if_pos h]
      exact List.prefix_append _ _
    · simp only [handleAddTag, if_neg h]
      exact List.prefix_refl _

/-- Witness for `tags_nodup_append_order` on a concrete list and tag
input needing trimming. -/
theorem tags_nodup_append_order_witness :
    handleAddTag ["a"] " b " = (["a", "b"], "") := by
  have h := tags_nodup_append_order.1 ["a"] " b " (by decide) (by decide)
  simpa using h

/-- C9 counterexample: on a non-ok response whose body is the JSON
text `null`, the parsed body lacks a truthy `detail`, yet `apiClient`
does not throw `HTTP <status>` — the property access `error.detail`
on the parsed `null` throws a TypeError that propagates instead. -/
theorem apiClient_null_body_counterexample :
    parseJson "null" = some Json.null
    ∧ apiClientHandle ⟨false, 500, "null"⟩
        = ApiOutcome.thrown "Cannot read properties of null (reading detail)"
    ∧ apiClientHandle ⟨false, 500, "null"⟩ ≠ ApiOutcome.thrown "HTTP 500" := by
  refine ⟨rfl, rfl, ?_⟩
  intro h
  rw [show apiClientHandle ⟨false, 500, "null"⟩
        = ApiOutcome.thrown "Cannot read properties of null (reading detail)"
      from rfl] at h
  injection h with h2
  exact absurd h2 (by decide)

/-- C9 (amended): on a non-ok response `apiClient` throws — the
message is the string coercion of the parsed body's `detail` field
when the body is JSON with a truthy `detail`, the string
`Request failed` when the body cannot be parsed as JSON, and
`HTTP <status>` when the parsed body is not JSON `null` and lacks a
truthy `detail`; when the parsed body is JSON `null`, the `detail`
access itself throws a TypeError that propagates instead; a 204
No Content response yields an empty object without parsing the
body. -/
theorem apiClient_error_outcomes :
    (∀ (resp : HttpResponse) (j d : Json),
       resp.ok = false → parseJson resp.body = some j →
       jsonGetField j "detail" = Except.ok (some d) → jsonTruthy d = true →
       apiClientHandle resp = ApiOutcome.thrown (jsToString d))
    ∧ (∀ resp : HttpResponse,
       resp.ok = false → parseJson resp.body = Option.none →
       apiClientHandle resp = ApiOutcome.thrown "Request failed")
    ∧ (∀ (resp : HttpResponse) (j : Json),
       resp.ok = false → parseJson resp.body = some j → j ≠ Json.null →
       (∀ d : Json, jsonGetField j "detail" = Except.ok (some d) → jsonTruthy d = false) →
       apiClientHandle resp = ApiOutcome.thrown ("HTTP " ++ toString resp.status))
    ∧ (∀ resp : HttpResponse,
       resp.ok = false → parseJson resp.body = some Json.null →
       apiClientHandle resp
         = ApiOutcome.thrown "Cannot read properties of null (reading detail)")
    ∧ (∀ resp : HttpResponse,
       resp.ok = true → resp.status = 204 →
       apiClientHandle resp = ApiOutcome.value (Json.obj [])) := by
  refine ⟨?_, ?_, ?_, ?_, ?_⟩
  · intro resp j d hok hparse hdetail htruthy
    simp [apiClientHandle, hok, hparse, hdetail, htruthy]
  · intro resp hok hparse
    simp [apiClientHandle, hok, hparse, jsonGetField, jsonLookup, jsonTruthy, jsToString]
  · intro resp j hok hparse hnull hfalsy
    cases j with
    | null => exact absurd rfl hnull
    | bool b => simp [apiClientHandle, hok, hparse, jsonGetField]
    | num n => simp [apiClientHandle, hok, hparse, jsonGetField]
    | str s => simp [apiClientHandle, hok, hparse, jsonGetField]
    | arr xs => simp [apiClientHandle, hok, hparse, jsonGetField]
    | obj fields =>
      cases hd : jsonLookup fields "detail" with
      | none => simp [apiClientHandle, hok, hparse, jsonGetField, hd]
      | some d =>
        have hft := hfalsy d (by simp [jsonGetField, hd])
        simp [apiClientHandle, hok, hparse, jsonGetField, hd, hft]
  · intro resp hok hparse
    simp [apiClientHandle, hok, hparse, jsonGetField]
  · intro resp hok h204
    simp [apiClientHandle, hok, h204]

/-- Witness for `apiClient_error_outcomes` at concrete responses for
each branch: truthy detail, unparseable body, detail-free object body,
JSON `null` body, and a 204 response. -/
theorem apiClient_error_outcomes_witness :
    apiClientHandle ⟨false, 400, "\x7b\"detail\": \"Title is required\"\x7d"⟩
      = ApiOutcome.thrown "Title is required"
    ∧ apiClientHandle ⟨false, 502, "<html>"⟩ = ApiOutcome.thrown "Request failed"
    ∧ apiClientHandle ⟨false, 500, "\x7b\"x\": 1\x7d"⟩ = ApiOutcome.thrown "HTTP 500"
    ∧ apiClientHandle ⟨false, 500, " null "⟩
        = ApiOutcome.thrown "Cannot read properties of null (reading detail)"
    ∧ apiClientHandle ⟨true, 204, ""⟩ = ApiOutcome.value (Json.obj []) := by
  refine ⟨?_, ?_, ?_, ?_, ?_⟩
  · have h := apiClient_error_outcomes.1
      ⟨false, 400, "\x7b\"detail\": \"Title is required\"\x7d"⟩
      (Json.obj [("detail", Json.str "Title is required")])
      (Json.str "Title is required") rfl (by rfl) (by rfl) (by rfl)
    simpa [jsToString] using h
  · exact apiClient_error_outcomes.2.1 ⟨false, 502, "<html>"⟩ rfl (by rfl)
  · exact apiClient_error_outcomes.2.2.1 ⟨false, 500, "\x7b\"x\": 1\x7d"⟩
      (Json.obj [("x", Json.num 1)]) rfl (by rfl)
      (by intro h; exact Json.noConfusion h)
      (by intro d hd; simp [jsonGetField, jsonLookup] at hd)
  · exact apiClient_error_outcomes.2.2.2.1 ⟨false, 500, " null "⟩ rfl (by rfl)
  · exact apiClient_error_outcomes.2.2.2.2 ⟨true, 204, ""⟩ rfl rfl

/-- When no successor is recorded for a key, the idempotency lookup
finds nothing. -/
lemma find_none_of_successorCount_zero (st : TaskStore) (k : Nat × Date)
    (h : successorCount st k = 0) :
    findSuccessorByIdempotencyKey st k = Option.none := by
  unfold findSuccessorByIdempotencyKey
  rw [List.find?_eq_none]
  intro t ht hkey
  have hmem : t ∈ st.tasks.filter (fun t => t.successorKey = some k) :=
    List.mem_filter.mpr ⟨ht, hkey⟩
  unfold successorCount at h
  rw [List.length_eq_zero] at h
  rw [h] at hmem
  exact absurd hmem (List.not_mem_nil t)

/-- When a successor is recorded for a key, the idempotency lookup
finds one. -/
lemma find_some_of_successorCount_pos (st : TaskStore) (k : Nat × Date)
    (h : 0 < successorCount st k) :
    ∃ t, findSuccessorByIdempotencyKey st k = some t := by
  unfold successorCount at h
  have hne : st.tasks.filter (fun t => t.successorKey = some k) ≠ [] := by
    intro he
    rw [he] at h
    exact absurd h (by simp)
  obtain ⟨t, ht⟩ := List.exists_mem_of_ne_nil _ hne
  have hmem := List.mem_filter.mp ht
  unfold findSuccessorByIdempotencyKey
  cases hfind : st.tasks.find? (fun t => t.successorKey = some k) with
  | some t2 => exact ⟨t2, rfl⟩
  | none =>
    rw [List.find?_eq_none] at hfind
    exact absurd hmem.2 (hfind t hmem.1)

/-- Once a successor with the event's idempotency key exists, the
completion handler is a no-op. -/
lemma handle_completed_noop_of_pos (st : TaskStore) (ev : CompletionEvent)
    (h : 0 < successorCount st (ev.taskId, ev.completedAt)) :
    handleTaskCompletedEvent st ev = st := by
  by_cases hrec : ev.snapshot.recurrence = Recurrence.none
  · simp [handleTaskCompletedEvent, hrec]
  · obtain ⟨t, ht⟩ := find_some_of_successorCount_pos st (ev.taskId, ev.completedAt) h
    simp [handleTaskCompletedEvent, hrec, ht]

/-- Processing a completion event for a recurring task with no
recorded successor creates exactly one successor. -/
lemma handle_completed_creates_one (st : TaskStore) (ev : CompletionEvent)
    (hrec : ev.snapshot.recurrence ≠ Recurrence.none)
    (h0 : successorCount st (ev.taskId, ev.completedAt) = 0) :
    successorCount (handleTaskCompletedEvent st ev) (ev.taskId, ev.completedAt) = 1 := by
  have hfind := find_none_of_successorCount_zero st (ev.taskId, ev.completedAt) h0
  unfold successorCount at h0 ⊢
  rw [List.length_eq_zero] at h0
  simp only [handleTaskCompletedEvent, hfind, if_neg hrec]
  simp [List.filter_append, h0]

/-- C2: for every completion event of a task whose recurrence rule is
not `none`, exactly one successor task exists in the store no matter
how many times the event is delivered — redelivery finds the existing
successor via the idempotency key `(original task id, completion
timestamp)` and inserts nothing. -/
theorem recurring_successor_created_once (st : TaskStore) (ev : CompletionEvent) (n : Nat)
    (hrec : ev.snapshot.recurrence ≠ Recurrence.none)
    (h0 : successorCount st (ev.taskId, ev.completedAt) = 0) :
    successorCount ((fun s => handleTaskCompletedEvent s ev)^[n + 1] st)
      (ev.taskId, ev.completedAt) = 1 := by
  induction n with
  | zero =>
    simpa using handle_completed_creates_one st ev hrec h0
  | succ m ih =>
    rw [Function.iterate_succ_apply']
    rw [handle_completed_noop_of_pos _ ev (by rw [ih]; exact Nat.one_pos)]
    exact ih

/-- Witness for `recurring_successor_created_once`: completing a
weekly task due 2025-03-10 delivers the event twice against an empty
store and leaves exactly one successor. -/
theorem recurring_successor_created_once_witness :
    successorCount
      ((fun s => handleTaskCompletedEvent s
          ⟨5, "u1",
           ⟨"standup", Option.none, Priority.medium, ["work"],
            Recurrence.weekly, some ⟨2025, 3, 10⟩⟩,
           ⟨2025, 3, 10⟩⟩)^[2] ⟨1, []⟩)
      (5, ⟨2025, 3, 10⟩) = 1 :=
  recurring_successor_created_once ⟨1, []⟩ _ 1 (by decide) (by rfl)

/-- Once the pair is marked notified, repeated delivery of the same
reminder emits nothing and leaves the state unchanged. -/
lemma deliverReminderN_marked (now : Date) (s : NotifierState) (ev : ReminderEvent)
    (n : Nat) (h : (ev.taskId, ev.dueDate) ∈ s.notified) :
    deliverReminderN now s ev n = (s, []) := by
  induction n with
  | zero => rfl
  | succ m ih =>
    have hstep : handleReminderEvent now s ev = (s, []) := by
      by_cases hp : dateIdx ev.dueDate < dateIdx now
      · simp [handleReminderEvent, hp]
      · simp [handleReminderEvent, hp, h]
    simp [deliverReminderN, hstep, ih]

/-- A reminder whose due date has passed emits nothing however often
it is redelivered. -/
lemma deliverReminderN_passed (now : Date) (s : NotifierState) (ev : ReminderEvent)
    (n : Nat) (hp : dateIdx ev.dueDate < dateIdx now) :
    deliverReminderN now s ev n = (s, []) := by
  induction n with
  | zero => rfl
  | succ m ih =>
    have hstep : handleReminderEvent now s ev = (s, []) := by
      simp [handleReminderEvent, hp]
    simp [deliverReminderN, hstep, ih]

/-- C3: for every `(task id, due date)` pair the Notification Consumer
emits at most one notification under arbitrarily repeated delivery of
the same reminders event; a notification is only emitted when the due
date has not passed and no prior notification exists for the pair —
otherwise the delivery is a no-op. -/
theorem reminder_notified_at_most_once :
    (∀ (now : Date) (s : NotifierState) (ev : ReminderEvent) (n : Nat),
       (deliverReminderN now s ev n).2.length ≤ 1)
    ∧ (∀ (now : Date) (s : NotifierState) (ev : ReminderEvent),
       dateIdx ev.dueDate < dateIdx now → handleReminderEvent now s ev = (s, []))
    ∧ (∀ (now : Date) (s : NotifierState) (ev : ReminderEvent),
       (ev.taskId, ev.dueDate) ∈ s.notified → handleReminderEvent now s ev = (s, []))
    ∧ (∀ (now : Date) (s : NotifierState) (ev : ReminderEvent),
       ¬ dateIdx ev.dueDate < dateIdx now → (ev.taskId, ev.dueDate) ∉ s.notified →
       handleReminderEvent now s ev
         = ({ notified := (ev.taskId, ev.dueDate) :: s.notified },
            [(ev.taskId, ev.dueDate)])
       ∧ (ev.taskId, ev.dueDate) ∈ (handleReminderEvent now s ev).1.notified) := by
  refine ⟨?_, ?_, ?_, ?_⟩
  · intro now s ev n
    cases n with
    | zero => simp [deliverReminderN]
    | succ m =>
      by_cases hp : dateIdx ev.dueDate < dateIdx now
      · rw [deliverReminderN_passed now s ev (m + 1) hp]
        simp
      · by_cases hm : (ev.taskId, ev.dueDate) ∈ s.notified
        · rw [deliverReminderN_marked now s ev (m + 1) hm]
          simp
        · have hstep : handleReminderEvent now s ev
              = ({ notified := (ev.taskId, ev.dueDate) :: s.notified },
                 [(ev.taskId, ev.dueDate)]) := by
            simp [handleReminderEvent, hp, hm]
          have hrest := deliverReminderN_marked now
            ⟨(ev.taskId, ev.dueDate) :: s.notified⟩ ev m (by simp)
          simp [deliverReminderN, hstep, hrest]
  · intro now s ev hp
    simp [handleReminderEvent, hp]
  · intro now s ev hm
    by_cases hp : dateIdx ev.dueDate < dateIdx now
    · simp [handleReminderEvent, hp]
    · simp [handleReminderEvent, hp, hm]
  · intro now s ev hp hm
    constructor
    · simp [handleReminderEvent, hp, hm]
    · simp [handleReminderEvent, hp, hm]

/-- Witness for `reminder_notified_at_most_once`: a past-due reminder
is a no-op, a marked pair is a no-op, and an unmarked future reminder
emits exactly once. -/
theorem reminder_notified_at_most_once_witness :
    handleReminderEvent ⟨2025, 3, 11⟩ ⟨[]⟩ ⟨1, ⟨2025, 3, 10⟩⟩ = (⟨[]⟩, [])
    ∧ handleReminderEvent ⟨2025, 3, 9⟩ ⟨[(1, ⟨2025, 3, 10⟩)]⟩ ⟨1, ⟨2025, 3, 10⟩⟩
        = (⟨[(1, ⟨2025, 3, 10⟩)]⟩, [])
    ∧ handleReminderEvent ⟨2025, 3, 9⟩ ⟨[]⟩ ⟨1, ⟨2025, 3, 10⟩⟩
        = (⟨[(1, ⟨2025, 3, 10⟩)]⟩, [(1, ⟨2025, 3, 10⟩)]) :=
  ⟨reminder_notified_at_most_once.2.1 ⟨2025, 3, 11⟩ ⟨[]⟩ ⟨1, ⟨2025, 3, 10⟩⟩ (by decide),
   reminder_notified_at_most_once.2.2.1 ⟨2025, 3, 9⟩ ⟨[(1, ⟨2025, 3, 10⟩)]⟩
     ⟨1, ⟨2025, 3, 10⟩⟩ (by decide),
   (reminder_notified_at_most_once.2.2.2 ⟨2025, 3, 9⟩ ⟨[]⟩ ⟨1, ⟨2025, 3, 10⟩⟩
     (by decide) (by decide)).1⟩
